import Mathlib

/-!
Verification of the `/analyze` request handler and module initialisation of
`app.py` (Pocket_Smart-AI), a Flask backend that validates a monthly income
and an expense breakdown, builds a prompt, and calls an external LLM API with
a fixed retry policy.

Modelling conventions:
* JSON values are the inductive `JVal`; Python numbers are exact rationals
  (`ℚ`), so binary floating-point rounding is not modelled.  No claim below
  depends on float precision.
* The parsed request body is a `List (String × JVal)` (the JSON object that
  `request.get_json(force=True)` produced; Python dicts preserve insertion
  order, duplicate keys cannot arise from a parsed JSON object but are
  harmless under first-match lookup).
* The external API call (`client.chat.completions.create` followed by
  `response.choices[0].message.content`) is abstracted as a function
  `api : Nat → ApiOutcome` giving, per attempt index, either the extracted
  first-choice content or a raised exception rendered as its `str(...)`.
* Side effects are reified: `Event.call` / `Event.sleep` record the API
  attempts and `time.sleep(10)` calls, and log lines record
  `app.logger.warning` / `app.logger.error` output.
-/

/-- A JSON value as produced by `request.get_json`: `null`, booleans, numbers
(modelled as exact rationals), strings, arrays and objects. -/
inductive JVal where
  | jnull : JVal
  | jbool (b : Bool) : JVal
  | jnum (q : ℚ) : JVal
  | jstr (s : String) : JVal
  | jarr (xs : List JVal) : JVal
  | jobj (kvs : List (String × JVal)) : JVal

/-- Python truthiness (`if amount`): `None`, `False`, `0`, `""`, `[]` and
`{}` are falsy, everything else truthy. -/
def truthy : JVal → Bool
  | .jnull => false
  | .jbool b => b
  | .jnum q => if q = 0 then false else true
  | .jstr s => if s = "" then false else true
  | .jarr xs => if xs.isEmpty then false else true
  | .jobj kvs => if kvs.isEmpty then false else true

/-- The `x is None` test of line 39. -/
def isNone : JVal → Bool
  | .jnull => true
  | _ => false

/-- The exceptions `float(...)` can raise, as caught on lines 45 and 60. -/
inductive PyFloatErr where
  | valueError : PyFloatErr
  | typeError : PyFloatErr
deriving DecidableEq

/-- Numeric value of a list of decimal digit characters. -/
def digitsVal (cs : List Char) : Nat :=
  cs.foldl (fun a c => a * 10 + (c.toNat - 48)) 0

/-- Parse the mantissa part of a Python float literal: decimal digits with an
optional single dot, at least one digit overall. -/
def parseMantissa (cs : List Char) : Option ℚ :=
  match cs.splitOn '.' with
  | [d] =>
    if d ≠ [] ∧ d.all Char.isDigit then some (digitsVal d) else none
  | [i, f] =>
    if (i ++ f) ≠ [] ∧ (i ++ f).all Char.isDigit then
      some ((digitsVal i : ℚ) + (digitsVal f : ℚ) / (10 : ℚ) ^ f.length)
    else none
  | _ => none

/-- Parse an optionally signed decimal exponent. -/
def parseExpPart (cs : List Char) : Option ℤ :=
  match cs with
  | '+' :: d => if d ≠ [] ∧ d.all Char.isDigit then some (digitsVal d) else none
  | '-' :: d => if d ≠ [] ∧ d.all Char.isDigit then some (-(digitsVal d : ℤ)) else none
  | d => if d ≠ [] ∧ d.all Char.isDigit then some (digitsVal d) else none

/-- Model of CPython `float(str)` on already-stripped characters: optional
sign, decimal mantissa, optional `e`/`E` exponent.  (The special forms
`inf`/`nan` and PEP 515 underscores are outside this model.) -/
def parseFloatChars (cs : List Char) : Option ℚ :=
  let (sgn, rest) :=
    match cs with
    | '+' :: r => ((1 : ℚ), r)
    | '-' :: r => ((-1 : ℚ), r)
    | r => ((1 : ℚ), r)
  match (rest.map Char.toLower).splitOn 'e' with
  | [m] => (parseMantissa m).map (fun q => sgn * q)
  | [m, e] =>
    match parseMantissa m, parseExpPart e with
    | some q, some ex => some (sgn * q * (10 : ℚ) ^ ex)
    | _, _ => none
  | _ => none

/-- Python `str.strip()`: drop whitespace from both ends. -/
def pyStrip (s : String) : String :=
  ⟨((s.data.dropWhile Char.isWhitespace).reverse.dropWhile Char.isWhitespace).reverse⟩

/-- Model of Python `float(v)` for a JSON value `v`: numbers pass through,
booleans become `1`/`0`, strings are stripped and parsed as decimal literals
(`ValueError` on failure), and `None`, lists and dicts raise `TypeError`. -/
def pyFloat : JVal → Except PyFloatErr ℚ
  | .jnum q => .ok q
  | .jbool b => .ok (if b then 1 else 0)
  | .jstr s =>
    match parseFloatChars (pyStrip s).data with
    | some q => .ok q
    | none => .error .valueError
  | .jnull => .error .typeError
  | .jarr _ => .error .typeError
  | .jobj _ => .error .typeError

/-- The test `str(income).strip() == ""` of line 39.  For every non-string
value `str(v)` is a non-empty, non-whitespace rendering (`None`, `True`,
`False`, a numeral, `[...]`, `{...}`), so the test can only succeed on a
string of whitespace. -/
def strStripEmpty : JVal → Bool
  | .jstr s => pyStrip s == ""
  | _ => false

/-- An HTTP response: status code and JSON body (`JVal.jnull` standing for a
non-JSON framework error page, which the handler itself never produces). -/
structure Response where
  status : Nat
  body : JVal

/-- `jsonify({"error": msg}), 400` as returned by the validation code. -/
def jsonErr400 (msg : String) : Response :=
  ⟨400, .jobj [("error", .jstr msg)]⟩

/-- Income validation, lines 38–46: `data.get("income")`, the
`None`/empty-string test, `float` conversion and the negativity check (both
failure modes share the same 400 message). -/
def validateIncome (data : List (String × JVal)) : Except Response ℚ :=
  let income := (data.lookup "income").getD .jnull
  if isNone income || strStripEmpty income then
    .error (jsonErr400 "Monthly income is required.")
  else
    match pyFloat income with
    | .ok q =>
      if q < 0 then .error (jsonErr400 "Income must be a valid positive number.")
      else .ok q
    | .error _ => .error (jsonErr400 "Income must be a valid positive number.")

/-- The loop of lines 54–61 over the expense entries: a falsy amount is taken
as `0.0` without conversion, otherwise `float` is applied; a conversion
failure or a negative value yields the per-category 400 error. -/
def parseExpensesGo :
    List (String × JVal) → List (String × ℚ) → Except Response (List (String × ℚ))
  | [], acc => .ok acc.reverse
  | (category, amount) :: rest, acc =>
    match (if truthy amount then pyFloat amount else .ok 0) with
    | .ok val =>
      if val < 0 then
        .error (jsonErr400 ("Invalid amount for \x27" ++ category ++ "\x27."))
      else parseExpensesGo rest ((category, val) :: acc)
    | .error _ =>
      .error (jsonErr400 ("Invalid amount for \x27" ++ category ++ "\x27."))

/-- Expense validation, lines 49–61: `data.get("expenses", {})`, the
`isinstance(expenses, dict) and expenses` test, then the per-entry loop. -/
def validateExpenses (data : List (String × JVal)) :
    Except Response (List (String × ℚ)) :=
  let expenses := (data.lookup "expenses").getD (.jobj [])
  match expenses with
  | .jobj kvs =>
    if kvs.isEmpty then .error (jsonErr400 "At least one expense category is required.")
    else parseExpensesGo kvs []
  | _ => .error (jsonErr400 "At least one expense category is required.")

/-- `total_expenses = sum(parsed_expenses.values())`, line 63. -/
def total_expenses (parsed : List (String × ℚ)) : ℚ :=
  (parsed.map Prod.snd).sum

/-- Model of Python `str.lower()` (ASCII case folding suffices for the
messages the code matches on). -/
def pyLower (s : String) : String :=
  ⟨s.data.map Char.toLower⟩

/-- Whether `pat` occurs as a contiguous run inside `text` (the Python
`pat in text` substring test). -/
def containsSeg (pat : List Char) : List Char → Bool
  | [] => pat.isEmpty
  | c :: rest => pat.isPrefixOf (c :: rest) || containsSeg pat rest

/-- Python `pat in s` on strings. -/
def strContains (s pat : String) : Bool :=
  containsSeg pat.data s.data

/-- The rate-limit classification of line 123:
`"rate" in err_str or "429" in err_str or "limit" in err_str` applied to the
lowercased exception text. -/
def isRateLimited (errStr : String) : Bool :=
  let m := pyLower errStr
  strContains m "rate" || strContains m "429" || strContains m "limit"

/-- The auth-error classification of line 139:
`"api_key" in error_msg or "invalid" in error_msg or "authenticate" in
error_msg` applied to the lowercased exception text. -/
def isAuthError (errStr : String) : Bool :=
  let m := pyLower errStr
  strContains m "api_key" || strContains m "invalid" || strContains m "authenticate"

/-- Floor of a rational as an integer (the denominator is positive, so
floor division of numerator by denominator). -/
def ratFloor (q : ℚ) : ℤ :=
  Int.fdiv q.num q.den

/-- Round a rational to the nearest integer, ties to even, as Python float
formatting rounds the (here exact) value at the last kept decimal. -/
def roundHalfEven (q : ℚ) : ℤ :=
  let f := ratFloor q
  let frac := q - f
  if frac < 1 / 2 then f
  else if 1 / 2 < frac then f + 1
  else if f % 2 = 0 then f else f + 1

/-- Walk least-significant-first digits, emitting a separator after every
third digit while more digits remain. -/
def groupRev : List Char → Nat → List Char
  | [], _ => []
  | c :: rest, k =>
    if k = 3 then ',' :: c :: groupRev rest 1
    else c :: groupRev rest (k + 1)

/-- Insert thousands separators into a most-significant-first digit string. -/
def commaGroup (s : List Char) : List Char :=
  (groupRev s.reverse 0).reverse

/-- Two-digit rendering of a number below 100. -/
def twoDigits (n : Nat) : String :=
  (if n < 10 then "0" else "") ++ toString n

/-- Model of the Python format spec `:,.2f`: fixed two decimals with
thousands separators in the integer part (sign kept from the exact value). -/
def fmtComma2 (q : ℚ) : String :=
  let n := roundHalfEven (q * 100)
  let sign := if q < 0 then "-" else ""
  let m := n.natAbs
  sign ++ ⟨commaGroup (toString (m / 100)).data⟩ ++ "." ++ twoDigits (m % 100)

/-- Python `cat.replace('_', ' ')` for the single-character pattern. -/
def replaceUnderscores (s : String) : String :=
  ⟨s.data.map (fun c => if c = '_' then ' ' else c)⟩

/-- Model of Python `str.title()`: the first character of every run of
alphabetic characters is uppercased, the rest of the run lowercased
(ASCII classification). -/
def pyTitleGo : List Char → Bool → List Char
  | [], _ => []
  | c :: rest, prevAlpha =>
    if c.isAlpha then
      (if prevAlpha then c.toLower else c.toUpper) :: pyTitleGo rest true
    else
      c :: pyTitleGo rest false

/-- Python `s.title()`. -/
def pyTitle (s : String) : String :=
  ⟨pyTitleGo s.data false⟩

/-- The literal currency-sign characters of the source file (the file stores
the mojibake sequence U+00E2 U+201A U+00B9 literally). -/
def rupee : String := "â‚¹"

/-- Python `sep.join(parts)`. -/
def strJoin (sep : String) : List String → String
  | [] => ""
  | [x] => x
  | x :: y :: rest => x ++ sep ++ strJoin sep (y :: rest)

/-- One line of the expense breakdown, line 67:
`f"  - {cat.replace('_', ' ').title()}: ₹{amt:,.2f}"`. -/
def expenseLine (cat : String) (amt : ℚ) : String :=
  "  - " ++ pyTitle (replaceUnderscores cat) ++ ": " ++ rupee ++ fmtComma2 amt

/-- `expense_lines`, lines 66–69. -/
def expense_lines (parsed : List (String × ℚ)) : String :=
  strJoin "\n" (parsed.map (fun p => expenseLine p.1 p.2))

/-- Template text before the income figure (lines 71–75 of the source,
with the mojibake characters the file literally contains). -/
def promptSeg0 : String :=
  "You are PocketSmart AI â€” a friendly, expert personal-finance advisor.\n\nA user has shared the following monthly financial data:\n\nMonthly Income : â‚¹"

/-- Template text between the income and total-expenses figures. -/
def promptSeg1 : String := "\nTotal Expenses : â‚¹"

/-- Template text between the total-expenses and remaining figures. -/
def promptSeg2 : String := "\nRemaining      : â‚¹"

/-- Template text between the remaining figure and the expense lines. -/
def promptSeg3 : String := "\n\nExpense Breakdown:\n"

/-- Template text after the expense lines (lines 82–101 of the source). -/
def promptSeg4 : String :=
  "\n\nBased on this data, provide a comprehensive yet easy-to-read budget analysis.\nStructure your response with these sections using markdown headings (##):\n\n## ðŸ“Š Budget Overview\nSummarize income vs. expenses and the current financial health.\n\n## ðŸ’¡ Smart Saving Tips\nGive 4-5 specific, actionable tips to reduce spending in the categories listed.\n\n## ðŸ“ˆ Better Spending Strategies\nSuggest how to reallocate money for better value (e.g., invest, emergency fund).\n\n## ðŸŽ¯ Recommended Monthly Budget\nProvide an ideal budget split (table format) for someone with this income level.\n\n## âš ï¸ Warnings\nFlag any concerning patterns (overspending, no savings, etc.).\n\nKeep the tone encouraging and practical. Use bullet points and emojis for readability.\n"

/-- The prompt f-string of lines 71–101, as a function of the validated
income and parsed expenses. -/
def prompt (income : ℚ) (parsed : List (String × ℚ)) : String :=
  promptSeg0 ++ fmtComma2 income ++
  promptSeg1 ++ fmtComma2 (total_expenses parsed) ++
  promptSeg2 ++ fmtComma2 (income - total_expenses parsed) ++
  promptSeg3 ++ expense_lines parsed ++ promptSeg4

/-- Outcome of one attempt of the external call, lines 107–119: either the
extracted first-choice content `response.choices[0].message.content`, or an
exception rendered as its `str(...)`. -/
inductive ApiOutcome where
  | success (content : String) : ApiOutcome
  | failure (errStr : String) : ApiOutcome

/-- Observable side effects of the handler: an API attempt (with the prompt
it sends) and a `time.sleep` call. -/
inductive Event where
  | call (attempt : Nat) (sentPrompt : String) : Event
  | sleep (seconds : Nat) : Event
deriving DecidableEq

/-- How control leaves the retry loop of lines 104–134. -/
inductive LoopResult where
  | respOk (advice : String) : LoopResult
  | resp429 : LoopResult
  | raised (errStr : String) : LoopResult
  | fellThrough : LoopResult
deriving DecidableEq

/-- Result of running the retry loop: its control outcome, the events it
performed, and the log lines it wrote. -/
structure RetryOut where
  result : LoopResult
  events : List Event
  logs : List String

/-- `max_retries = 3`, line 104. -/
def max_retries : Nat := 3

/-- `MODEL = "llama-3.3-70b-versatile"`, line 17. -/
def MODEL : String := "llama-3.3-70b-versatile"

/-- The `for attempt in range(max_retries)` loop of lines 105–134, iterating
over the remaining attempt indices.  On success it returns the advice; on an
exception it retries (after a warning log and `time.sleep(10)`) when the
message matches the rate-limit test and later iterations remain, answers 429
when the rate-limited last iteration is reached, and re-raises otherwise.
The `[]` case is Python falling off the `for` statement (returning `None`),
which is unreachable from `List.range max_retries` since the last iteration
never hits `continue`. -/
def runFor (api : Nat → ApiOutcome) (sentPrompt : String) :
    List Nat → RetryOut
  | [] => ⟨.fellThrough, [], []⟩
  | attempt :: restAttempts =>
    match api attempt with
    | .success content => ⟨.respOk content, [.call attempt sentPrompt], []⟩
    | .failure apiErr =>
      if isRateLimited apiErr then
        if attempt < max_retries - 1 then
          let rest := runFor api sentPrompt restAttempts
          ⟨rest.result, .call attempt sentPrompt :: .sleep 10 :: rest.events,
            ("Rate limited (attempt " ++ toString (attempt + 1) ++ "), retrying in 10s...")
              :: rest.logs⟩
        else
          ⟨.resp429, [.call attempt sentPrompt],
            ["Rate limit exceeded after " ++ toString max_retries ++ " retries: " ++ apiErr]⟩
      else ⟨.raised apiErr, [.call attempt sentPrompt], []⟩

/-- The outer `except` of lines 136–141: message-based classification of the
escaped exception into 401 (auth) or 500 (anything else). -/
def outerHandler (exc : String) : Response :=
  let errorMsg := pyLower exc
  if strContains errorMsg "api_key" || strContains errorMsg "invalid"
      || strContains errorMsg "authenticate" then
    ⟨401, .jobj [("error", .jstr "Invalid API key. Please check your GROQ_API_KEY in the .env file.")]⟩
  else
    ⟨500, .jobj [("error", .jstr "Something went wrong while generating advice. Please try again.")]⟩

/-- Everything a run of the handler produces: the HTTP response, the API/sleep
events, and the log lines written. -/
structure HandlerOut where
  resp : Response
  events : List Event
  logs : List String

/-- The `/analyze` handler of lines 31–141 on an already-parsed JSON object
body: income validation, expense validation, prompt construction, the retry
loop, and the outer exception mapping.  The unreachable `fellThrough` case is
Python returning `None`, which Flask turns into a non-JSON 500 error page. -/
def analyze (data : List (String × JVal)) (api : Nat → ApiOutcome) : HandlerOut :=
  match validateIncome data with
  | .error r => ⟨r, [], []⟩
  | .ok income =>
    match validateExpenses data with
    | .error r => ⟨r, [], []⟩
    | .ok parsed_expenses =>
      let out := runFor api (prompt income parsed_expenses) (List.range max_retries)
      match out.result with
      | .respOk advice =>
        ⟨⟨200, .jobj [("advice", .jstr advice)]⟩, out.events, out.logs⟩
      | .resp429 =>
        ⟨⟨429, .jobj [("error", .jstr "Groq API rate limit reached. Please wait 30-60 seconds and try again.")]⟩,
          out.events, out.logs⟩
      | .raised exc =>
        ⟨outerHandler exc, out.events, out.logs ++ ["Analysis error: " ++ exc]⟩
      | .fellThrough => ⟨⟨500, .jnull⟩, out.events, out.logs⟩

/-- The module-level mutable and immutable server-side objects: the
configuration constants of lines 12–19 and the logger's accumulated lines
(the only object the handler writes). -/
structure ServerState where
  groqApiKey : String
  model : String
  logLines : List String

/-- One request handled against a server state: the handler only appends its
log lines; configuration is untouched and the body of the response depends
only on the request data and the external API behaviour. -/
def analyzeApp (s : ServerState) (data : List (String × JVal))
    (api : Nat → ApiOutcome) : ServerState × HandlerOut :=
  let out := analyze data api
  ({ s with logLines := s.logLines ++ out.logs }, out)

/-- The module-level state built when `app.py` imports successfully. -/
structure ModuleState where
  groqApiKey : String
  model : String
  routes : List String

/-- Module initialisation, lines 10–31 and 147: read `GROQ_API_KEY` from the
environment, raise `RuntimeError` when it is missing or empty (`if not
GROQ_API_KEY`), and otherwise build the client, the model constant, and
register the two routes — the `raise` on line 14 executes before any
`@app.route` decorator. -/
def initModule (env : String → Option String) : Except String ModuleState :=
  match env "GROQ_API_KEY" with
  | none => .error "GROQ_API_KEY not found. Please set it in your .env file."
  | some k =>
    if k = "" then .error "GROQ_API_KEY not found. Please set it in your .env file."
    else .ok ⟨k, MODEL, ["/", "/analyze"]⟩

/-- The retry-warning log line for a given (0-based) attempt index. -/
def warnLog (attempt : Nat) : String :=
  "Rate limited (attempt " ++ toString (attempt + 1) ++ "), retrying in 10s..."

/-- The exhaustion log line. -/
def exhaustLog (apiErr : String) : String :=
  "Rate limit exceeded after " ++ toString max_retries ++ " retries: " ++ apiErr

/-- Whether an attempt outcome is a failure that the loop classifies as
rate-limited. -/
def rlFailure : ApiOutcome → Bool
  | .success _ => false
  | .failure e => isRateLimited e


/-! Helper lemmas shared by the claim theorems. -/

/-- Strings with the same character data are equal. -/
theorem strExt {a b : String} (h : a.data = b.data) : a = b := by
  cases a
  cases b
  exact congrArg String.mk h

/-- A member of a joined list occurs contiguously in the join. -/
theorem strJoin_mem_decomp (sep x : String) (l : List String) (hx : x ∈ l) :
    ∃ a b, strJoin sep l = a ++ x ++ b := by
  induction l with
  | nil => cases hx
  | cons y ys ih =>
    rcases List.mem_cons.mp hx with rfl | hmem
    · cases ys with
      | nil =>
        refine ⟨"", "", strExt ?_⟩
        simp [strJoin, String.data_append]
      | cons z zs =>
        refine ⟨"", sep ++ strJoin sep (z :: zs), strExt ?_⟩
        simp [strJoin, String.data_append]
    · have hys : ys ≠ [] := List.ne_nil_of_mem hmem
      obtain ⟨z, zs, rfl⟩ := List.exists_cons_of_ne_nil hys
      obtain ⟨a, b, hab⟩ := ih hmem
      refine ⟨y ++ sep ++ a, b, strExt ?_⟩
      simp [strJoin, hab, String.data_append, List.append_assoc]

/-- Appending the empty string on either side is the identity. -/
theorem strEmptyAppend (x : String) : "" ++ x ++ "" = x := by
  apply strExt
  simp [String.data_append]

/-- Rearranged form of the prompt around the expense-lines block. -/
theorem prompt_decomp (income : ℚ) (parsed : List (String × ℚ)) :
    prompt income parsed =
      (promptSeg0 ++ fmtComma2 income ++ promptSeg1 ++
        fmtComma2 (total_expenses parsed) ++ promptSeg2 ++
        fmtComma2 (income - total_expenses parsed) ++ promptSeg3) ++
      expense_lines parsed ++ promptSeg4 := by
  simp only [prompt, String.append_assoc]

set_option maxHeartbeats 1000000 in
/-- Every line of the expense breakdown occurs contiguously in the prompt. -/
theorem prompt_contains_line (income : ℚ) (parsed : List (String × ℚ))
    (cat : String) (amt : ℚ) (h : (cat, amt) ∈ parsed) :
    ∃ a b, prompt income parsed = a ++ expenseLine cat amt ++ b := by
  have hline : expenseLine cat amt ∈ parsed.map (fun p => expenseLine p.1 p.2) :=
    List.mem_map.mpr ⟨(cat, amt), h, rfl⟩
  obtain ⟨a, b, hab⟩ := strJoin_mem_decomp "\n" (expenseLine cat amt)
    (parsed.map (fun p => expenseLine p.1 p.2)) hline
  refine ⟨(promptSeg0 ++ fmtComma2 income ++ promptSeg1 ++
    fmtComma2 (total_expenses parsed) ++ promptSeg2 ++
    fmtComma2 (income - total_expenses parsed) ++ promptSeg3) ++ a,
    b ++ promptSeg4, ?_⟩
  rw [prompt_decomp]
  unfold expense_lines
  rw [hab]
  simp only [String.append_assoc]

/-- Every income-validation failure is a 400 with a single-key error JSON. -/
theorem validateIncome_error_shape (data : List (String × JVal)) (r : Response)
    (h : validateIncome data = .error r) :
    r.status = 400 ∧ ∃ msg, r.body = .jobj [("error", .jstr msg)] := by
  unfold validateIncome at h
  dsimp only at h
  split at h
  · injection h with h'
    subst h'
    exact ⟨rfl, _, rfl⟩
  · split at h
    · split at h
      · injection h with h'
        subst h'
        exact ⟨rfl, _, rfl⟩
      · exact Except.noConfusion h
    · injection h with h'
      subst h'
      exact ⟨rfl, _, rfl⟩

/-- Every failure of the expense loop is a 400 with a single-key error JSON. -/
theorem parseExpensesGo_error_shape (kvs : List (String × JVal))
    (acc : List (String × ℚ)) (r : Response)
    (h : parseExpensesGo kvs acc = .error r) :
    r.status = 400 ∧ ∃ msg, r.body = .jobj [("error", .jstr msg)] := by
  induction kvs generalizing acc with
  | nil => exact Except.noConfusion h
  | cons hd rest ih =>
    obtain ⟨category, amount⟩ := hd
    unfold parseExpensesGo at h
    split at h
    · split at h
      · injection h with h'
        subst h'
        exact ⟨rfl, _, rfl⟩
      · exact ih _ h
    · injection h with h'
      subst h'
      exact ⟨rfl, _, rfl⟩

/-- Every expense-validation failure is a 400 with a single-key error JSON. -/
theorem validateExpenses_error_shape (data : List (String × JVal)) (r : Response)
    (h : validateExpenses data = .error r) :
    r.status = 400 ∧ ∃ msg, r.body = .jobj [("error", .jstr msg)] := by
  unfold validateExpenses at h
  dsimp only at h
  split at h
  · split at h
    · injection h with h'
      subst h'
      exact ⟨rfl, _, rfl⟩
    · exact parseExpensesGo_error_shape _ _ _ h
  · injection h with h'
    subst h'
    exact ⟨rfl, _, rfl⟩

/-- A failed income validation short-circuits the handler: the error response
is returned and nothing else happens. -/
theorem analyze_income_error (data : List (String × JVal)) (api : Nat → ApiOutcome)
    (r : Response) (h : validateIncome data = .error r) :
    analyze data api = ⟨r, [], []⟩ := by
  unfold analyze
  rw [h]

/-- A failed expense validation short-circuits the handler. -/
theorem analyze_expenses_error (data : List (String × JVal)) (api : Nat → ApiOutcome)
    (income : ℚ) (r : Response) (h1 : validateIncome data = .ok income)
    (h2 : validateExpenses data = .error r) :
    analyze data api = ⟨r, [], []⟩ := by
  unfold analyze
  rw [h1, h2]


/-- A successful attempt returns the advice at once. -/
theorem runFor_success (api : Nat → ApiOutcome) (p : String) (attempt : Nat)
    (rest : List Nat) (c : String) (h : api attempt = .success c) :
    runFor api p (attempt :: rest) = ⟨.respOk c, [.call attempt p], []⟩ := by
  unfold runFor
  rw [h]

/-- A non-rate-limited failure re-raises at once. -/
theorem runFor_raise (api : Nat → ApiOutcome) (p : String) (attempt : Nat)
    (rest : List Nat) (e : String) (h : api attempt = .failure e)
    (hr : isRateLimited e = false) :
    runFor api p (attempt :: rest) = ⟨.raised e, [.call attempt p], []⟩ := by
  simp [runFor, h, hr]

/-- A rate-limited failure on a non-final attempt logs, sleeps and continues. -/
theorem runFor_retry (api : Nat → ApiOutcome) (p : String) (attempt : Nat)
    (rest : List Nat) (e : String) (h : api attempt = .failure e)
    (hr : isRateLimited e = true) (hlt : attempt < max_retries - 1) :
    runFor api p (attempt :: rest) =
      ⟨(runFor api p rest).result,
        .call attempt p :: .sleep 10 :: (runFor api p rest).events,
        warnLog attempt :: (runFor api p rest).logs⟩ := by
  simp [runFor, h, hr, hlt, warnLog]

/-- A rate-limited failure on the final attempt answers 429. -/
theorem runFor_exhaust (api : Nat → ApiOutcome) (p : String) (attempt : Nat)
    (rest : List Nat) (e : String) (h : api attempt = .failure e)
    (hr : isRateLimited e = true) (hge : ¬ attempt < max_retries - 1) :
    runFor api p (attempt :: rest) = ⟨.resp429, [.call attempt p], [exhaustLog e]⟩ := by
  simp [runFor, h, hr, hge, exhaustLog]

/-- A validated request runs the retry loop on `range max_retries` and maps
its outcome; stated for each loop outcome. -/
theorem analyze_valid_respOk (data : List (String × JVal)) (api : Nat → ApiOutcome)
    (income : ℚ) (parsed : List (String × ℚ)) (c : String)
    (h1 : validateIncome data = .ok income) (h2 : validateExpenses data = .ok parsed)
    (h3 : (runFor api (prompt income parsed) (List.range max_retries)).result = .respOk c) :
    analyze data api =
      ⟨⟨200, .jobj [("advice", .jstr c)]⟩,
        (runFor api (prompt income parsed) (List.range max_retries)).events,
        (runFor api (prompt income parsed) (List.range max_retries)).logs⟩ := by
  unfold analyze
  rw [h1, h2]
  dsimp only
  rw [h3]

/-- Exhausted retries become the fixed 429 response. -/
theorem analyze_valid_429 (data : List (String × JVal)) (api : Nat → ApiOutcome)
    (income : ℚ) (parsed : List (String × ℚ))
    (h1 : validateIncome data = .ok income) (h2 : validateExpenses data = .ok parsed)
    (h3 : (runFor api (prompt income parsed) (List.range max_retries)).result = .resp429) :
    analyze data api =
      ⟨⟨429, .jobj [("error", .jstr "Groq API rate limit reached. Please wait 30-60 seconds and try again.")]⟩,
        (runFor api (prompt income parsed) (List.range max_retries)).events,
        (runFor api (prompt income parsed) (List.range max_retries)).logs⟩ := by
  unfold analyze
  rw [h1, h2]
  dsimp only
  rw [h3]

/-- A re-raised exception reaches the outer handler, which also logs it. -/
theorem analyze_valid_raised (data : List (String × JVal)) (api : Nat → ApiOutcome)
    (income : ℚ) (parsed : List (String × ℚ)) (e : String)
    (h1 : validateIncome data = .ok income) (h2 : validateExpenses data = .ok parsed)
    (h3 : (runFor api (prompt income parsed) (List.range max_retries)).result = .raised e) :
    analyze data api =
      ⟨outerHandler e,
        (runFor api (prompt income parsed) (List.range max_retries)).events,
        (runFor api (prompt income parsed) (List.range max_retries)).logs
          ++ ["Analysis error: " ++ e]⟩ := by
  unfold analyze
  rw [h1, h2]
  dsimp only
  rw [h3]

/-- Exhaustive enumeration of the retry loop over `range max_retries`: the
loop ends on the first successful or non-rate-limited attempt, continues on a
rate-limited failure of attempts 0 and 1, and answers 429 on a rate-limited
failure of attempt 2; events and logs are fully determined. -/
theorem runFor3_enum (api : Nat → ApiOutcome) (p : String) :
    (∃ c, api 0 = .success c ∧
      runFor api p (List.range max_retries) = ⟨.respOk c, [.call 0 p], []⟩)
  ∨ (∃ e, api 0 = .failure e ∧ isRateLimited e = false ∧
      runFor api p (List.range max_retries) = ⟨.raised e, [.call 0 p], []⟩)
  ∨ (∃ e0, api 0 = .failure e0 ∧ isRateLimited e0 = true ∧
      ((∃ c, api 1 = .success c ∧
        runFor api p (List.range max_retries) =
          ⟨.respOk c, [.call 0 p, .sleep 10, .call 1 p], [warnLog 0]⟩)
      ∨ (∃ e, api 1 = .failure e ∧ isRateLimited e = false ∧
        runFor api p (List.range max_retries) =
          ⟨.raised e, [.call 0 p, .sleep 10, .call 1 p], [warnLog 0]⟩)
      ∨ (∃ e1, api 1 = .failure e1 ∧ isRateLimited e1 = true ∧
        ((∃ c, api 2 = .success c ∧
          runFor api p (List.range max_retries) =
            ⟨.respOk c, [.call 0 p, .sleep 10, .call 1 p, .sleep 10, .call 2 p],
              [warnLog 0, warnLog 1]⟩)
        ∨ (∃ e, api 2 = .failure e ∧ isRateLimited e = false ∧
          runFor api p (List.range max_retries) =
            ⟨.raised e, [.call 0 p, .sleep 10, .call 1 p, .sleep 10, .call 2 p],
              [warnLog 0, warnLog 1]⟩)
        ∨ (∃ e2, api 2 = .failure e2 ∧ isRateLimited e2 = true ∧
          runFor api p (List.range max_retries) =
            ⟨.resp429, [.call 0 p, .sleep 10, .call 1 p, .sleep 10, .call 2 p],
              [warnLog 0, warnLog 1, exhaustLog e2]⟩))))) := by
  have range3 : List.range max_retries = [0, 1, 2] := rfl
  rw [range3]
  cases h0 : api 0 with
  | success c =>
    exact Or.inl ⟨c, rfl, runFor_success api p 0 [1, 2] c h0⟩
  | failure e0 =>
    cases hr0 : isRateLimited e0 with
    | false =>
      exact Or.inr (Or.inl ⟨e0, rfl, hr0, runFor_raise api p 0 [1, 2] e0 h0 hr0⟩)
    | true =>
      refine Or.inr (Or.inr ⟨e0, rfl, hr0, ?_⟩)
      have hrun0 := runFor_retry api p 0 [1, 2] e0 h0 hr0 (by decide)
      cases h1 : api 1 with
      | success c =>
        have hrun1 := runFor_success api p 1 [2] c h1
        exact Or.inl ⟨c, rfl, by rw [hrun0, hrun1]⟩
      | failure e1 =>
        cases hr1 : isRateLimited e1 with
        | false =>
          have hrun1 := runFor_raise api p 1 [2] e1 h1 hr1
          exact Or.inr (Or.inl ⟨e1, rfl, hr1, by rw [hrun0, hrun1]⟩)
        | true =>
          refine Or.inr (Or.inr ⟨e1, rfl, hr1, ?_⟩)
          have hrun1 := runFor_retry api p 1 [2] e1 h1 hr1 (by decide)
          cases h2 : api 2 with
          | success c =>
            have hrun2 := runFor_success api p 2 [] c h2
            exact Or.inl ⟨c, rfl, by rw [hrun0, hrun1, hrun2]⟩
          | failure e2 =>
            cases hr2 : isRateLimited e2 with
            | false =>
              have hrun2 := runFor_raise api p 2 [] e2 h2 hr2
              exact Or.inr (Or.inl ⟨e2, rfl, hr2, by rw [hrun0, hrun1, hrun2]⟩)
            | true =>
              have hrun2 := runFor_exhaust api p 2 [] e2 h2 hr2 (by decide)
              exact Or.inr (Or.inr ⟨e2, rfl, hr2, by rw [hrun0, hrun1, hrun2]⟩)

/-- The outer handler is the auth/other dichotomy on the message test. -/
theorem outerHandler_eq (e : String) :
    outerHandler e =
      if isAuthError e then
        ⟨401, .jobj [("error", .jstr "Invalid API key. Please check your GROQ_API_KEY in the .env file.")]⟩
      else
        ⟨500, .jobj [("error", .jstr "Something went wrong while generating advice. Please try again.")]⟩ := rfl

/-- C1: every exception escaping the inner logic of `/analyze` (neither a
validation failure nor an exhausted rate-limit retry, i.e. a `raised` loop
outcome) is answered by the outer handler with an error JSON: HTTP 401
exactly when the message matches the auth-error test, HTTP 500 otherwise. -/
theorem C1_unhandled_exception_mapping (data : List (String × JVal))
    (api : Nat → ApiOutcome) (income : ℚ) (parsed : List (String × ℚ)) (e : String)
    (h1 : validateIncome data = .ok income)
    (h2 : validateExpenses data = .ok parsed)
    (h3 : (runFor api (prompt income parsed) (List.range max_retries)).result = .raised e) :
    (analyze data api).resp = outerHandler e
    ∧ ((analyze data api).resp.status = 401 ↔ isAuthError e = true)
    ∧ (isAuthError e = false → (analyze data api).resp.status = 500)
    ∧ ∃ msg, (analyze data api).resp.body = .jobj [("error", .jstr msg)] := by
  have ha := analyze_valid_raised data api income parsed e h1 h2 h3
  rw [ha]
  cases hA : isAuthError e with
  | true => simp [outerHandler_eq, hA]
  | false => simp [outerHandler_eq, hA]

/-- Witness for C1 at a concrete request and a non-auth failing API. -/
theorem C1_unhandled_exception_mapping_witness :
    (analyze [("income", JVal.jnum 1000), ("expenses", JVal.jobj [("rent", JVal.jnum 100)])]
        (fun _ => ApiOutcome.failure "boom")).resp = outerHandler "boom"
    ∧ ((analyze [("income", JVal.jnum 1000), ("expenses", JVal.jobj [("rent", JVal.jnum 100)])]
        (fun _ => ApiOutcome.failure "boom")).resp.status = 401 ↔ isAuthError "boom" = true)
    ∧ (isAuthError "boom" = false →
        (analyze [("income", JVal.jnum 1000), ("expenses", JVal.jobj [("rent", JVal.jnum 100)])]
          (fun _ => ApiOutcome.failure "boom")).resp.status = 500)
    ∧ ∃ msg, (analyze [("income", JVal.jnum 1000), ("expenses", JVal.jobj [("rent", JVal.jnum 100)])]
        (fun _ => ApiOutcome.failure "boom")).resp.body = .jobj [("error", .jstr msg)] :=
  C1_unhandled_exception_mapping
    [("income", JVal.jnum 1000), ("expenses", JVal.jobj [("rent", JVal.jnum 100)])]
    (fun _ => ApiOutcome.failure "boom") 1000 [("rent", 100)] "boom"
    (by with_unfolding_all rfl) (by with_unfolding_all rfl) (by with_unfolding_all rfl)

/-- A missing, whitespace-empty, unconvertible or negative income makes
income validation fail. -/
theorem validateIncome_error_of (data : List (String × JVal))
    (hbad : isNone ((data.lookup "income").getD .jnull) = true
      ∨ strStripEmpty ((data.lookup "income").getD .jnull) = true
      ∨ (∃ e, pyFloat ((data.lookup "income").getD .jnull) = .error e)
      ∨ (∃ q, pyFloat ((data.lookup "income").getD .jnull) = .ok q ∧ q < 0)) :
    ∃ r, validateIncome data = .error r := by
  unfold validateIncome
  dsimp only
  rcases hbad with h | h | ⟨e, he⟩ | ⟨q, hq, hlt⟩
  · simp [h]
  · simp [h]
  · by_cases hif : (isNone ((data.lookup "income").getD .jnull)
        || strStripEmpty ((data.lookup "income").getD .jnull)) = true
    · simp [hif]
    · simp [hif, he]
  · by_cases hif : (isNone ((data.lookup "income").getD .jnull)
        || strStripEmpty ((data.lookup "income").getD .jnull)) = true
    · simp [hif]
    · simp [hif, hq, hlt]

/-- C2: the income field is validated as a non-negative number: a missing,
empty, non-numeric or negative income is answered with HTTP 400 and an error
JSON without any API attempt, and every non-negative JSON-number income
(including exactly 0) passes income validation with that value. -/
theorem C2_income_validation (data : List (String × JVal)) (api : Nat → ApiOutcome) :
    ((isNone ((data.lookup "income").getD .jnull) = true
      ∨ strStripEmpty ((data.lookup "income").getD .jnull) = true
      ∨ (∃ e, pyFloat ((data.lookup "income").getD .jnull) = .error e)
      ∨ (∃ q, pyFloat ((data.lookup "income").getD .jnull) = .ok q ∧ q < 0)) →
      ((analyze data api).resp.status = 400
        ∧ (∃ msg, (analyze data api).resp.body = .jobj [("error", .jstr msg)])
        ∧ (analyze data api).events = []))
    ∧ (∀ q : ℚ, 0 ≤ q → data.lookup "income" = some (.jnum q) →
        validateIncome data = .ok q) := by
  constructor
  · intro hbad
    obtain ⟨r, hr⟩ := validateIncome_error_of data hbad
    rw [analyze_income_error data api r hr]
    obtain ⟨hst, msg, hbody⟩ := validateIncome_error_shape data r hr
    exact ⟨hst, ⟨msg, hbody⟩, rfl⟩
  · intro q hq hlookup
    unfold validateIncome
    rw [hlookup]
    simp [isNone, strStripEmpty, pyFloat, not_lt.mpr hq]

/-- Witness for C2: a non-numeric income string is answered 400 with no API
call, and the exact income 0 passes validation. -/
theorem C2_income_validation_witness :
    ((analyze [("income", JVal.jstr "abc")] (fun _ => ApiOutcome.success "ok")).resp.status = 400
      ∧ (∃ msg, (analyze [("income", JVal.jstr "abc")]
          (fun _ => ApiOutcome.success "ok")).resp.body = .jobj [("error", .jstr msg)])
      ∧ (analyze [("income", JVal.jstr "abc")] (fun _ => ApiOutcome.success "ok")).events = [])
    ∧ validateIncome [("income", JVal.jnum 0)] = .ok 0 :=
  ⟨(C2_income_validation [("income", JVal.jstr "abc")] (fun _ => ApiOutcome.success "ok")).1
      (Or.inr (Or.inr (Or.inl ⟨.valueError, by with_unfolding_all rfl⟩))),
    (C2_income_validation [("income", JVal.jnum 0)] (fun _ => ApiOutcome.success "ok")).2
      0 le_rfl (by with_unfolding_all rfl)⟩

/-- Counterexample to C3 as stated: the amount `null` is non-numeric
(`float(None)` raises `TypeError`), yet the handler accepts the request and
answers 200, because falsy amounts bypass conversion. -/
theorem C3_expenses_validation_counterexample :
    pyFloat JVal.jnull = .error .typeError
    ∧ (analyze [("income", JVal.jnum 1000), ("expenses", JVal.jobj [("rent", JVal.jnull)])]
        (fun _ => ApiOutcome.success "ok")).resp.status = 200 := by
  constructor
  · rfl
  · with_unfolding_all rfl

/-- If the expense loop accepts a list, every truthy amount in it converted
to a non-negative number. -/
theorem parseExpensesGo_ok_entries (kvs : List (String × JVal))
    (acc l : List (String × ℚ)) (h : parseExpensesGo kvs acc = .ok l) :
    ∀ cat amt, (cat, amt) ∈ kvs → truthy amt = true →
      ∃ q, pyFloat amt = .ok q ∧ ¬ q < 0 := by
  induction kvs generalizing acc with
  | nil => intro cat amt hmem; cases hmem
  | cons hd rest ih =>
    obtain ⟨c, a⟩ := hd
    intro cat amt hmem htr
    unfold parseExpensesGo at h
    split at h
    next val heq =>
      split at h
      · exact Except.noConfusion h
      next hnlt =>
        rcases List.mem_cons.mp hmem with hpair | hmem'
        · obtain ⟨rfl, rfl⟩ := Prod.mk.injEq .. ▸ hpair
          rw [htr] at heq
          simp only [if_true] at heq
          exact ⟨val, heq, hnlt⟩
        · exact ih _ h cat amt hmem' htr
    next heq => exact Except.noConfusion h

/-- C3 (amended): a missing, non-mapping or empty expenses field is answered
HTTP 400 with an error JSON and no API attempt, and so is any entry whose
amount is truthy and either non-numeric or negative; entries with falsy
amounts (e.g. `null`, `""`, `0`, `false`) are not rejected. -/
theorem C3_expenses_validation_amended (data : List (String × JVal))
    (api : Nat → ApiOutcome) :
    (∀ r, validateExpenses data = .error r →
      (analyze data api).resp.status = 400
        ∧ (∃ msg, (analyze data api).resp.body = .jobj [("error", .jstr msg)])
        ∧ (analyze data api).events = [])
    ∧ ((∀ kvs, (data.lookup "expenses").getD (.jobj []) = .jobj kvs → kvs = []) →
        ∃ r, validateExpenses data = .error r)
    ∧ (∀ kvs cat amt, (data.lookup "expenses").getD (.jobj []) = .jobj kvs →
        (cat, amt) ∈ kvs → truthy amt = true →
        ((∃ e, pyFloat amt = .error e) ∨ (∃ q, pyFloat amt = .ok q ∧ q < 0)) →
        ∃ r, validateExpenses data = .error r) := by
  refine ⟨?_, ?_, ?_⟩
  · intro r hr
    cases hI : validateIncome data with
    | error rI =>
      rw [analyze_income_error data api rI hI]
      obtain ⟨hst, msg, hbody⟩ := validateIncome_error_shape data rI hI
      exact ⟨hst, ⟨msg, hbody⟩, rfl⟩
    | ok income =>
      rw [analyze_expenses_error data api income r hI hr]
      obtain ⟨hst, msg, hbody⟩ := validateExpenses_error_shape data r hr
      exact ⟨hst, ⟨msg, hbody⟩, rfl⟩
  · intro hempty
    unfold validateExpenses
    dsimp only
    cases hJ : (data.lookup "expenses").getD (.jobj []) with
    | jobj kvs =>
      have : kvs = [] := hempty kvs hJ
      subst this
      simp
    | jnull => simp
    | jbool b => simp
    | jnum q => simp
    | jstr s => simp
    | jarr xs => simp
  · intro kvs cat amt hJ hmem htr hbad
    cases hE : validateExpenses data with
    | error r => exact ⟨r, rfl⟩
    | ok l =>
      exfalso
      unfold validateExpenses at hE
      dsimp only at hE
      rw [hJ] at hE
      dsimp only at hE
      split at hE
      · exact Except.noConfusion hE
      · obtain ⟨q, hq, hnlt⟩ := parseExpensesGo_ok_entries kvs [] l hE cat amt hmem htr
        rcases hbad with ⟨e, he⟩ | ⟨q', hq', hlt⟩
        · rw [hq] at he
          exact Except.noConfusion he
        · rw [hq] at hq'
          injection hq' with hqq
          exact hnlt (hqq ▸ hlt)

/-- Witness for the amended C3: a truthy non-numeric amount makes expense
validation fail. -/
theorem C3_expenses_validation_amended_witness :
    ∃ r, validateExpenses [("income", JVal.jnum 10), ("expenses", JVal.jobj [("rent", JVal.jstr "x")])]
      = .error r :=
  (C3_expenses_validation_amended
    [("income", JVal.jnum 10), ("expenses", JVal.jobj [("rent", JVal.jstr "x")])]
    (fun _ => ApiOutcome.success "ok")).2.2
    [("rent", JVal.jstr "x")] "rent" (JVal.jstr "x")
    (by with_unfolding_all rfl) (by simp) (by with_unfolding_all rfl)
    (Or.inl ⟨.valueError, by with_unfolding_all rfl⟩)

/-- C4: the external API is attempted at most 3 times; a further attempt
happens only after a rate-limited failure with fewer than 3 attempts made,
and consecutive attempts are separated by exactly one `sleep(10)`. -/
theorem C4_retry_policy (api : Nat → ApiOutcome) (p : String) :
    (rlFailure (api 0) = false →
      (runFor api p (List.range max_retries)).events = [.call 0 p])
    ∧ (rlFailure (api 0) = true → rlFailure (api 1) = false →
      (runFor api p (List.range max_retries)).events =
        [.call 0 p, .sleep 10, .call 1 p])
    ∧ (rlFailure (api 0) = true → rlFailure (api 1) = true →
      (runFor api p (List.range max_retries)).events =
        [.call 0 p, .sleep 10, .call 1 p, .sleep 10, .call 2 p]) := by
  rcases runFor3_enum api p with ⟨c, h0, hrun⟩ | ⟨e, h0, hre, hrun⟩ | ⟨e0, h0, hre0, hnest⟩
  · exact ⟨fun _ => by rw [hrun],
      fun hf => by simp [h0, rlFailure] at hf,
      fun hf => by simp [h0, rlFailure] at hf⟩
  · exact ⟨fun _ => by rw [hrun],
      fun hf => by simp [h0, rlFailure, hre] at hf,
      fun hf => by simp [h0, rlFailure, hre] at hf⟩
  · have h0t : rlFailure (api 0) = true := by simp [h0, rlFailure, hre0]
    rcases hnest with ⟨c, h1, hrun⟩ | ⟨e, h1, hre1, hrun⟩ | ⟨e1, h1, hre1, hnest2⟩
    · exact ⟨fun h0f => by simp [h0t] at h0f,
        fun _ _ => by rw [hrun],
        fun _ h1t => by simp [h1, rlFailure] at h1t⟩
    · exact ⟨fun h0f => by simp [h0t] at h0f,
        fun _ _ => by rw [hrun],
        fun _ h1t => by simp [h1, rlFailure, hre1] at h1t⟩
    · have hev : (runFor api p (List.range max_retries)).events =
          [.call 0 p, .sleep 10, .call 1 p, .sleep 10, .call 2 p] := by
        rcases hnest2 with ⟨c, h2, hrun⟩ | ⟨e, h2, hre2, hrun⟩ | ⟨e2, h2, hre2, hrun⟩ <;>
          rw [hrun]
      exact ⟨fun h0f => by simp [h0t] at h0f,
        fun _ h1f => by simp [h1, rlFailure, hre1] at h1f,
        fun _ _ => hev⟩

/-- Witness for C4 with every attempt rate-limited: three calls, two sleeps. -/
theorem C4_retry_policy_witness :
    (runFor (fun _ => ApiOutcome.failure "rate") "p" (List.range max_retries)).events =
      [.call 0 "p", .sleep 10, .call 1 "p", .sleep 10, .call 2 "p"] :=
  (C4_retry_policy (fun _ => ApiOutcome.failure "rate") "p").2.2
    (by with_unfolding_all rfl) (by with_unfolding_all rfl)

/-- C5: a rate-limited failure on the 3rd (final) attempt yields the fixed
429 error JSON, while a rate-limited failure on an earlier attempt only makes
the loop sleep and continue (it produces no response by itself). -/
theorem C5_exhausted_rate_limit (data : List (String × JVal)) (api : Nat → ApiOutcome)
    (income : ℚ) (parsed : List (String × ℚ))
    (hI : validateIncome data = .ok income) (hE : validateExpenses data = .ok parsed) :
    (rlFailure (api 0) = true → rlFailure (api 1) = true → rlFailure (api 2) = true →
      (analyze data api).resp.status = 429
      ∧ (analyze data api).resp.body =
          .jobj [("error", .jstr "Groq API rate limit reached. Please wait 30-60 seconds and try again.")])
    ∧ (∀ i rest, i < max_retries - 1 → rlFailure (api i) = true →
        runFor api (prompt income parsed) (i :: rest) =
          ⟨(runFor api (prompt income parsed) rest).result,
            .call i (prompt income parsed) :: .sleep 10 ::
              (runFor api (prompt income parsed) rest).events,
            warnLog i :: (runFor api (prompt income parsed) rest).logs⟩) := by
  constructor
  · intro ha0 ha1 ha2
    rcases runFor3_enum api (prompt income parsed) with
      ⟨c, h0, hrun⟩ | ⟨e, h0, hre, hrun⟩ | ⟨e0, h0, hre0, hnest⟩
    · simp [h0, rlFailure] at ha0
    · simp [h0, rlFailure, hre] at ha0
    · rcases hnest with ⟨c, h1, hrun⟩ | ⟨e, h1, hre1, hrun⟩ | ⟨e1, h1, hre1, hnest2⟩
      · simp [h1, rlFailure] at ha1
      · simp [h1, rlFailure, hre1] at ha1
      · rcases hnest2 with ⟨c, h2, hrun⟩ | ⟨e, h2, hre2, hrun⟩ | ⟨e2, h2, hre2, hrun⟩
        · simp [h2, rlFailure] at ha2
        · simp [h2, rlFailure, hre2] at ha2
        · have h3 : (runFor api (prompt income parsed) (List.range max_retries)).result
              = .resp429 := by rw [hrun]
          rw [analyze_valid_429 data api income parsed hI hE h3]
          exact ⟨rfl, rfl⟩
  · intro i rest hi hrf
    cases hai : api i with
    | success c => simp [hai, rlFailure] at hrf
    | failure e =>
      have hre : isRateLimited e = true := by simpa [hai, rlFailure] using hrf
      exact runFor_retry api _ i rest e hai hre hi

/-- Witness for C5: all three attempts rate-limited on a valid request. -/
theorem C5_exhausted_rate_limit_witness :
    (analyze [("income", JVal.jnum 1000), ("expenses", JVal.jobj [("rent", JVal.jnum 100)])]
        (fun _ => ApiOutcome.failure "429")).resp.status = 429
    ∧ (analyze [("income", JVal.jnum 1000), ("expenses", JVal.jobj [("rent", JVal.jnum 100)])]
        (fun _ => ApiOutcome.failure "429")).resp.body =
        .jobj [("error", .jstr "Groq API rate limit reached. Please wait 30-60 seconds and try again.")] :=
  (C5_exhausted_rate_limit
    [("income", JVal.jnum 1000), ("expenses", JVal.jobj [("rent", JVal.jnum 100)])]
    (fun _ => ApiOutcome.failure "429") 1000 [("rent", 100)]
    (by with_unfolding_all rfl) (by with_unfolding_all rfl)).1
    (by with_unfolding_all rfl) (by with_unfolding_all rfl) (by with_unfolding_all rfl)

/-- C6: the prompt contains one breakdown line per expense category (with
underscores replaced by spaces and title-casing applied), a Total Expenses
figure formatting exactly the sum of the parsed amounts, and a Remaining
figure formatting exactly income minus that sum. -/
theorem C6_prompt_template (income : ℚ) (parsed : List (String × ℚ)) :
    (∀ cat amt, (cat, amt) ∈ parsed →
      ∃ a b, prompt income parsed =
        a ++ ("  - " ++ pyTitle (replaceUnderscores cat) ++ ": " ++ rupee ++ fmtComma2 amt) ++ b)
    ∧ (∃ a b, prompt income parsed =
        a ++ ("Total Expenses : " ++ rupee ++ fmtComma2 (total_expenses parsed)) ++ b)
    ∧ (∃ a b, prompt income parsed =
        a ++ ("Remaining      : " ++ rupee ++ fmtComma2 (income - total_expenses parsed)) ++ b) := by
  refine ⟨?_, ?_, ?_⟩
  · intro cat amt h
    exact prompt_contains_line income parsed cat amt h
  · refine ⟨promptSeg0 ++ fmtComma2 income ++ "\n",
      promptSeg2 ++ fmtComma2 (income - total_expenses parsed) ++ promptSeg3 ++
        expense_lines parsed ++ promptSeg4, ?_⟩
    have hseg : promptSeg1 = "\n" ++ ("Total Expenses : " ++ rupee) := rfl
    unfold prompt
    rw [hseg]
    simp only [String.append_assoc]
  · refine ⟨promptSeg0 ++ fmtComma2 income ++ promptSeg1 ++
      fmtComma2 (total_expenses parsed) ++ "\n",
      promptSeg3 ++ expense_lines parsed ++ promptSeg4, ?_⟩
    have hseg : promptSeg2 = "\n" ++ ("Remaining      : " ++ rupee) := rfl
    unfold prompt
    rw [hseg]
    simp only [String.append_assoc]

/-- Witness for C6 at a concrete category and amount. -/
theorem C6_prompt_template_witness :
    ∃ a b, prompt 100 [("food_items", (5 : ℚ))] =
      a ++ ("  - " ++ pyTitle (replaceUnderscores "food_items") ++ ": " ++ rupee ++ fmtComma2 5) ++ b :=
  (C6_prompt_template 100 [("food_items", 5)]).1 "food_items" 5 (by simp)

/-- The loop started on `range max_retries` never falls off the `for`. -/
theorem runFor3_ne_fellThrough (api : Nat → ApiOutcome) (p : String) :
    (runFor api p (List.range max_retries)).result ≠ .fellThrough := by
  rcases runFor3_enum api p with ⟨c, _, hrun⟩ | ⟨e, _, _, hrun⟩ | ⟨e0, _, _, hnest⟩
  · rw [hrun]; simp
  · rw [hrun]; simp
  · rcases hnest with ⟨c, _, hrun⟩ | ⟨e, _, _, hrun⟩ | ⟨e1, _, _, hnest2⟩
    · rw [hrun]; simp
    · rw [hrun]; simp
    · rcases hnest2 with ⟨c, _, hrun⟩ | ⟨e, _, _, hrun⟩ | ⟨e2, _, _, hrun⟩ <;> (rw [hrun]; simp)

/-- C7: a successful API attempt is answered 200 with an `advice` field
holding exactly the first-choice content, and every response of the handler,
success or error, is a JSON object. -/
theorem C7_success_and_json_shape (data : List (String × JVal)) (api : Nat → ApiOutcome) :
    (∀ income parsed c, validateIncome data = .ok income →
      validateExpenses data = .ok parsed →
      (runFor api (prompt income parsed) (List.range max_retries)).result = .respOk c →
      (analyze data api).resp = ⟨200, .jobj [("advice", .jstr c)]⟩)
    ∧ ∃ kvs, (analyze data api).resp.body = .jobj kvs := by
  constructor
  · intro income parsed c hI hE h3
    rw [analyze_valid_respOk data api income parsed c hI hE h3]
  · cases hI : validateIncome data with
    | error r =>
      rw [analyze_income_error data api r hI]
      obtain ⟨_, msg, hbody⟩ := validateIncome_error_shape data r hI
      exact ⟨_, hbody⟩
    | ok income =>
      cases hE : validateExpenses data with
      | error r =>
        rw [analyze_expenses_error data api income r hI hE]
        obtain ⟨_, msg, hbody⟩ := validateExpenses_error_shape data r hE
        exact ⟨_, hbody⟩
      | ok parsed =>
        cases h3 : (runFor api (prompt income parsed) (List.range max_retries)).result with
        | respOk c =>
          rw [analyze_valid_respOk data api income parsed c hI hE h3]
          exact ⟨_, rfl⟩
        | resp429 =>
          rw [analyze_valid_429 data api income parsed hI hE h3]
          exact ⟨_, rfl⟩
        | raised e =>
          rw [analyze_valid_raised data api income parsed e hI hE h3]
          cases hA : isAuthError e <;> simp [outerHandler_eq, hA]
        | fellThrough =>
          exact absurd h3 (runFor3_ne_fellThrough api (prompt income parsed))

/-- Witness for C7 on a concrete successful request. -/
theorem C7_success_and_json_shape_witness :
    (analyze [("income", JVal.jnum 1000), ("expenses", JVal.jobj [("rent", JVal.jnum 100)])]
        (fun _ => ApiOutcome.success "spend less")).resp =
      ⟨200, .jobj [("advice", .jstr "spend less")]⟩ :=
  (C7_success_and_json_shape
    [("income", JVal.jnum 1000), ("expenses", JVal.jobj [("rent", JVal.jnum 100)])]
    (fun _ => ApiOutcome.success "spend less")).1 1000 [("rent", 100)] "spend less"
    (by with_unfolding_all rfl) (by with_unfolding_all rfl) (by with_unfolding_all rfl)

/-- Every call event the loop performs carries the one prompt it was given. -/
theorem runFor_call_prompt (api : Nat → ApiOutcome) (p : String) (l : List Nat) :
    ∀ a q, Event.call a q ∈ (runFor api p l).events → q = p := by
  induction l with
  | nil => intro a q h; simp [runFor] at h
  | cons attempt rest ih =>
    intro a q h
    unfold runFor at h
    cases hA : api attempt
    · rw [hA] at h
      dsimp only at h
      injection List.mem_singleton.mp h
    · rw [hA] at h
      dsimp only at h
      split at h
      · split at h
        · rcases List.mem_cons.mp h with h' | h'
          · injection h'
          · rcases List.mem_cons.mp h' with h'' | h''
            · exact Event.noConfusion h''
            · exact ih a q h''
        · injection List.mem_singleton.mp h
      · injection List.mem_singleton.mp h

/-- On a validated request the handler's events are exactly the loop's. -/
theorem analyze_events_of_valid (data : List (String × JVal)) (api : Nat → ApiOutcome)
    (income : ℚ) (parsed : List (String × ℚ))
    (hI : validateIncome data = .ok income) (hE : validateExpenses data = .ok parsed) :
    (analyze data api).events =
      (runFor api (prompt income parsed) (List.range max_retries)).events := by
  unfold analyze
  rw [hI, hE]
  dsimp only
  cases h3 : (runFor api (prompt income parsed) (List.range max_retries)).result <;> rfl

/-- Any call event the handler performs sends the prompt built from the
validated request body. -/
theorem analyze_call_prompt (data : List (String × JVal)) (api : Nat → ApiOutcome)
    (a : Nat) (p : String) (h : Event.call a p ∈ (analyze data api).events) :
    ∃ income parsed, validateIncome data = .ok income
      ∧ validateExpenses data = .ok parsed ∧ p = prompt income parsed := by
  cases hI : validateIncome data with
  | error r =>
    rw [analyze_income_error data api r hI] at h
    simp at h
  | ok income =>
    cases hE : validateExpenses data with
    | error r =>
      rw [analyze_expenses_error data api income r hI hE] at h
      simp at h
    | ok parsed =>
      rw [analyze_events_of_valid data api income parsed hI hE] at h
      exact ⟨income, parsed, rfl, rfl,
        runFor_call_prompt api (prompt income parsed) (List.range max_retries) a p h⟩

/-- The handler's status is 400 exactly when validation failed, which is a
property of the body alone. -/
theorem analyze_status400_iff (data : List (String × JVal)) (api : Nat → ApiOutcome) :
    (analyze data api).resp.status = 400 ↔
      ((∃ r, validateIncome data = .error r)
        ∨ (∃ r, validateExpenses data = .error r)) := by
  cases hI : validateIncome data with
  | error r =>
    rw [analyze_income_error data api r hI]
    obtain ⟨hst, _⟩ := validateIncome_error_shape data r hI
    exact ⟨fun _ => Or.inl ⟨r, rfl⟩, fun _ => hst⟩
  | ok income =>
    cases hE : validateExpenses data with
    | error r =>
      rw [analyze_expenses_error data api income r hI hE]
      obtain ⟨hst, _⟩ := validateExpenses_error_shape data r hE
      exact ⟨fun _ => Or.inr ⟨r, rfl⟩, fun _ => hst⟩
    | ok parsed =>
      have hbad : ¬ ((∃ r, (Except.ok income : Except Response ℚ) = .error r)
          ∨ (∃ r, (Except.ok parsed : Except Response (List (String × ℚ))) = .error r)) := by
        rintro (⟨r, hr⟩ | ⟨r, hr⟩) <;> exact Except.noConfusion hr
      have hne : (analyze data api).resp.status ≠ 400 := by
        cases h3 : (runFor api (prompt income parsed) (List.range max_retries)).result with
        | respOk c => rw [analyze_valid_respOk data api income parsed c hI hE h3]; simp
        | resp429 => rw [analyze_valid_429 data api income parsed hI hE h3]; simp
        | raised e =>
          rw [analyze_valid_raised data api income parsed e hI hE h3]
          cases hA : isAuthError e <;> simp [outerHandler_eq, hA]
        | fellThrough => exact absurd h3 (runFor3_ne_fellThrough api (prompt income parsed))
      exact ⟨fun hst => absurd hst hne, fun hb => absurd hb hbad⟩

/-- C8: the handler touches no durable server-side state: its whole output is
independent of the pre-existing server state, it only appends its log lines
(configuration is untouched), its validation outcome is the same across runs
on the same body regardless of the external API, and every prompt it ever
sends for a given body is the same string, character for character. -/
theorem C8_stateless_deterministic (s₁ s₂ : ServerState) (data : List (String × JVal))
    (api : Nat → ApiOutcome) :
    ((analyzeApp s₁ data api).2 = (analyzeApp s₂ data api).2)
    ∧ ((analyzeApp s₁ data api).1.groqApiKey = s₁.groqApiKey
        ∧ (analyzeApp s₁ data api).1.model = s₁.model
        ∧ (analyzeApp s₁ data api).1.logLines = s₁.logLines ++ (analyze data api).logs)
    ∧ (∀ api' : Nat → ApiOutcome,
        ((analyze data api).resp.status = 400 ↔ (analyze data api').resp.status = 400))
    ∧ (∀ (api' : Nat → ApiOutcome) a p a' p',
        Event.call a p ∈ (analyze data api).events →
        Event.call a' p' ∈ (analyze data api').events → p = p') := by
  refine ⟨rfl, ⟨rfl, rfl, rfl⟩, ?_, ?_⟩
  · intro api'
    exact (analyze_status400_iff data api).trans (analyze_status400_iff data api').symm
  · intro api' a p a' p' h h'
    obtain ⟨income, parsed, hI, hE, hp⟩ := analyze_call_prompt data api a p h
    obtain ⟨income', parsed', hI', hE', hp'⟩ := analyze_call_prompt data api' a' p' h'
    rw [hI] at hI'
    injection hI' with hinc
    rw [hE] at hE'
    injection hE' with hpar
    rw [hp, hp', ← hinc, ← hpar]

/-- Witness for C8: two different prior states and API behaviours, same body,
same prompt sent. -/
theorem C8_stateless_deterministic_witness :
    (analyzeApp ⟨"k1", "m1", ["earlier"]⟩
        [("income", JVal.jnum 1000), ("expenses", JVal.jobj [("rent", JVal.jnum 100)])]
        (fun _ => ApiOutcome.success "ok")).2 =
      (analyzeApp ⟨"k2", "m2", []⟩
        [("income", JVal.jnum 1000), ("expenses", JVal.jobj [("rent", JVal.jnum 100)])]
        (fun _ => ApiOutcome.success "ok")).2
    ∧ ∀ a p a' p',
        Event.call a p ∈ (analyze [("income", JVal.jnum 1000), ("expenses", JVal.jobj [("rent", JVal.jnum 100)])]
          (fun _ => ApiOutcome.success "ok")).events →
        Event.call a' p' ∈ (analyze [("income", JVal.jnum 1000), ("expenses", JVal.jobj [("rent", JVal.jnum 100)])]
          (fun _ => ApiOutcome.failure "rate")).events → p = p' :=
  ⟨(C8_stateless_deterministic ⟨"k1", "m1", ["earlier"]⟩ ⟨"k2", "m2", []⟩
      [("income", JVal.jnum 1000), ("expenses", JVal.jobj [("rent", JVal.jnum 100)])]
      (fun _ => ApiOutcome.success "ok")).1,
    fun a p a' p' h h' =>
      (C8_stateless_deterministic ⟨"k1", "m1", ["earlier"]⟩ ⟨"k2", "m2", []⟩
        [("income", JVal.jnum 1000), ("expenses", JVal.jobj [("rent", JVal.jnum 100)])]
        (fun _ => ApiOutcome.success "ok")).2.2.2 (fun _ => ApiOutcome.failure "rate")
        a p a' p' h h'⟩

/-- C9: a falsy expense amount (`null`, `""`, `0`, `false`) is not rejected:
the loop records it as `0.0`, it contributes nothing to the total, and its
own zero-amount line appears in the prompt. -/
theorem C9_falsy_amounts (cat : String) (v : JVal) (hv : truthy v = false) :
    (truthy JVal.jnull = false ∧ truthy (JVal.jstr "") = false
      ∧ truthy (JVal.jnum 0) = false ∧ truthy (JVal.jbool false) = false)
    ∧ (∀ rest acc, parseExpensesGo ((cat, v) :: rest) acc =
        parseExpensesGo rest ((cat, 0) :: acc))
    ∧ (∀ l, total_expenses ((cat, (0 : ℚ)) :: l) = total_expenses l)
    ∧ (∀ (income : ℚ) (l₁ l₂ : List (String × ℚ)),
        ∃ a b, prompt income (l₁ ++ (cat, (0 : ℚ)) :: l₂) =
          a ++ ("  - " ++ pyTitle (replaceUnderscores cat) ++ ": " ++ rupee ++ "0.00") ++ b) := by
  refine ⟨⟨rfl, rfl, by simp [truthy], rfl⟩, ?_, ?_, ?_⟩
  · intro rest acc
    conv_lhs => unfold parseExpensesGo
    simp [hv]
  · intro l
    simp [total_expenses]
  · intro income l₁ l₂
    have hmem : (cat, (0 : ℚ)) ∈ l₁ ++ (cat, (0 : ℚ)) :: l₂ := by simp
    obtain ⟨a, b, hab⟩ := prompt_contains_line income _ cat 0 hmem
    have h0 : fmtComma2 0 = "0.00" := by with_unfolding_all rfl
    refine ⟨a, b, ?_⟩
    rw [hab, ← h0]
    rfl

/-- Witness for C9: a `null` amount steps the loop with value `0`. -/
theorem C9_falsy_amounts_witness :
    parseExpensesGo [("rent", JVal.jnull)] [] = parseExpensesGo [] [("rent", 0)] :=
  (C9_falsy_amounts "rent" JVal.jnull rfl).2.1 [] []

/-- C10: with `GROQ_API_KEY` unset or empty in the environment, module
initialisation raises `RuntimeError` and no route is registered (routes exist
only in a successfully initialised module, which requires a non-empty key). -/
theorem C10_startup_key_check (env : String → Option String)
    (h : env "GROQ_API_KEY" = none ∨ env "GROQ_API_KEY" = some "") :
    initModule env = .error "GROQ_API_KEY not found. Please set it in your .env file."
    ∧ (∀ (env' : String → Option String) (st : ModuleState),
        initModule env' = .ok st →
        st.routes = ["/", "/analyze"]
        ∧ ∃ k, env' "GROQ_API_KEY" = some k ∧ k ≠ "" ∧ st.groqApiKey = k) := by
  constructor
  · rcases h with h | h <;> simp [initModule, h]
  · intro env' st hok
    unfold initModule at hok
    split at hok
    · exact Except.noConfusion hok
    next k hk =>
      split at hok
      · exact Except.noConfusion hok
      next hne =>
        injection hok with h'
        subst h'
        exact ⟨rfl, k, hk, hne, rfl⟩

/-- Witness for C10 with an empty environment. -/
theorem C10_startup_key_check_witness :
    initModule (fun _ => none) =
      .error "GROQ_API_KEY not found. Please set it in your .env file." :=
  (C10_startup_key_check (fun _ => none) (Or.inl rfl)).1
